import Mathlib

/- Verification of the webhook-driven activity enrichment pipeline of the
   rain-or-shine API: the credential refresher and error taxonomy of
   src/services/stravaApi.ts, the weather resolver of
   src/services/weatherService.ts, the webhook retry controller of
   src/routes/strava.ts, and the enrichment orchestrator contract. -/

/-- JavaScript Math.round for finite inputs: round half toward positive
infinity, i.e. the floor of x + 1/2. -/
def jsRound (x : ℚ) : ℤ := ⌊x + 1 / 2⌋

/-- Test that the second character list begins with the first. -/
def beginsWith : List Char → List Char → Bool
  | [], _ => true
  | _ :: _, [] => false
  | p :: ps, c :: cs => p = c && beginsWith ps cs

/-- Substring containment on character lists: the pattern occurs at some
position of the scanned list. -/
def containsChars (pat : List Char) : List Char → Bool
  | [] => pat.isEmpty
  | c :: cs => beginsWith pat (c :: cs) || containsChars pat cs

/-- Substring containment test, as JavaScript String.prototype.includes. -/
def containsText (s pat : String) : Bool := containsChars pat.data s.data

/-- JavaScript String.prototype.toLowerCase over the ASCII range. -/
def lowerText (s : String) : String := ⟨s.data.map Char.toLower⟩

/-- Token refresh buffer of StravaApiService: 5 minutes, in milliseconds. -/
def tokenRefreshBuffer : ℤ := 5 * 60 * 1000

/-- Body of a successful response of the Strava token endpoint, with
expires_at in Unix seconds, as consumed by refreshAccessToken. -/
structure TokenRefreshResponse where
  access_token : String
  refresh_token : String
  expires_at : ℤ
deriving Repr, DecidableEq

/-- Result record of StravaApiService.ensureValidToken; the expiry is kept in
Unix milliseconds (JavaScript Date time value). -/
structure TokenValidationResult where
  accessToken : String
  refreshToken : String
  expiresAtMs : ℤ
  wasRefreshed : Bool
deriving Repr, DecidableEq

/-- StravaApiService.ensureValidToken: computes now plus the 5-minute buffer
and refreshes when expiresAt is at or before that boundary, returning the new
pair with wasRefreshed set; otherwise passes the inputs through unchanged.
The outcome of the refreshAccessToken network call is a parameter; a failed
refresh propagates as an error. Times are Unix milliseconds. -/
def ensureValidToken (nowMs : ℤ)
    (refreshOutcome : Except String TokenRefreshResponse)
    (accessToken refreshToken : String) (expiresAtMs : ℤ) :
    Except String TokenValidationResult :=
  if expiresAtMs ≤ nowMs + tokenRefreshBuffer then
    match refreshOutcome with
    | .ok t => .ok ⟨t.access_token, t.refresh_token, t.expires_at * 1000, true⟩
    | .error e => .error e
  else
    .ok ⟨accessToken, refreshToken, expiresAtMs, false⟩

/-- Retry strategy installed on the Bottleneck limiter in the StravaApiService
constructor: an HTTP 429 is retried after 5000 * 2 ^ retryCount milliseconds;
any other error is not retried (null). -/
def stravaRetryDelay (retryCount : ℕ) (statusCode : Option ℕ) : Option ℕ :=
  if statusCode = some 429 then some (5000 * 2 ^ retryCount) else none

/-- Message taxonomy of StravaApiService.handleApiError, switching on the
HTTP status of a non-2xx response. -/
def stravaApiErrorMessage (status : ℕ) (errorText : String) : String :=
  if status = 401 then "Strava access token expired or invalid"
  else if status = 403 then "Not authorized to perform this action"
  else if status = 404 then "Resource not found or not accessible"
  else if status = 429 then "Rate limit exceeded"
  else "Strava API error (" ++ toString status ++ "): " ++ errorText

/-- C4: ensureValidToken refreshes exactly when expiresAt is at or before
now + 5 minutes (boundary inclusive: the exact edge refreshes, one
millisecond past it does not); without a refresh it returns the input tokens
unchanged with wasRefreshed false, and with a refresh it returns the new pair
with wasRefreshed true. -/
theorem ensureValidToken_boundary (nowMs expiresAtMs : ℤ) (acc ref : String)
    (t : TokenRefreshResponse) :
    (expiresAtMs ≤ nowMs + 5 * 60 * 1000 →
      ensureValidToken nowMs (.ok t) acc ref expiresAtMs =
        .ok ⟨t.access_token, t.refresh_token, t.expires_at * 1000, true⟩) ∧
    (nowMs + 5 * 60 * 1000 < expiresAtMs →
      ensureValidToken nowMs (.ok t) acc ref expiresAtMs =
        .ok ⟨acc, ref, expiresAtMs, false⟩) ∧
    ensureValidToken nowMs (.ok t) acc ref (nowMs + 5 * 60 * 1000) =
      .ok ⟨t.access_token, t.refresh_token, t.expires_at * 1000, true⟩ ∧
    ensureValidToken nowMs (.ok t) acc ref (nowMs + 5 * 60 * 1000 + 1) =
      .ok ⟨acc, ref, nowMs + 5 * 60 * 1000 + 1, false⟩ := by
  refine ⟨?_, ?_, ?_, ?_⟩ <;> simp [ensureValidToken, tokenRefreshBuffer]

/-- Witness for ensureValidToken_boundary at a concrete clock and token. -/
theorem ensureValidToken_boundary_witness :
    ensureValidToken 1000000 (.ok ⟨"na", "nr", 2000⟩) "a" "r" 1300000 =
      .ok ⟨"na", "nr", 2000000, true⟩ ∧
    ensureValidToken 1000000 (.ok ⟨"na", "nr", 2000⟩) "a" "r" 1300001 =
      .ok ⟨"a", "r", 1300001, false⟩ :=
  ⟨((ensureValidToken_boundary 1000000 1300000 "a" "r" ⟨"na", "nr", 2000⟩).1
      (by norm_num)),
   ((ensureValidToken_boundary 1000000 1300001 "a" "r" ⟨"na", "nr", 2000⟩).2.1
      (by norm_num))⟩

/-- C8: the limiter retries an HTTP 429 with exponential backoff
5000 * 2 ^ retryCount milliseconds (5s, 10s, 20s for the first three retries)
and retries nothing else; handleApiError maps 401 to the invalid-credential
message, 403 to forbidden, 404 to not-found, 429 to the quota message, and
every other status to the generic message carrying status and body. -/
theorem strava_backoff_and_taxonomy :
    (∀ k, stravaRetryDelay k (some 429) = some (5000 * 2 ^ k)) ∧
    stravaRetryDelay 0 (some 429) = some 5000 ∧
    stravaRetryDelay 1 (some 429) = some 10000 ∧
    stravaRetryDelay 2 (some 429) = some 20000 ∧
    (∀ k s, s ≠ some 429 → stravaRetryDelay k s = none) ∧
    (∀ t, stravaApiErrorMessage 401 t = "Strava access token expired or invalid") ∧
    (∀ t, stravaApiErrorMessage 403 t = "Not authorized to perform this action") ∧
    (∀ t, stravaApiErrorMessage 404 t = "Resource not found or not accessible") ∧
    (∀ t, stravaApiErrorMessage 429 t = "Rate limit exceeded") ∧
    (∀ s t, s ≠ 401 → s ≠ 403 → s ≠ 404 → s ≠ 429 →
      stravaApiErrorMessage s t =
        "Strava API error (" ++ toString s ++ "): " ++ t) := by
  refine ⟨fun k => rfl, rfl, rfl, rfl, ?_, fun t => rfl, fun t => rfl,
    fun t => rfl, fun t => rfl, ?_⟩
  · intro k s hs
    simp [stravaRetryDelay, hs]
  · intro s t h1 h3 h4 h9
    simp [stravaApiErrorMessage, h1, h3, h4, h9]

/-- Witness for strava_backoff_and_taxonomy: the non-429 branch at status 500
and the taxonomy at a concrete status. -/
theorem strava_backoff_and_taxonomy_witness :
    stravaRetryDelay 0 (some 500) = none ∧
    stravaApiErrorMessage 500 "boom" = "Strava API error (500): boom" :=
  ⟨strava_backoff_and_taxonomy.2.2.2.2.1 0 (some 500) (by decide),
   strava_backoff_and_taxonomy.2.2.2.2.2.2.2.2.2 500 "boom"
     (by decide) (by decide) (by decide) (by decide)⟩

/-- Historical limit of the weather resolver: 120 hours (5 days). -/
def HISTORICAL_LIMIT_HOURS : ℚ := 120

/-- Recent-activity threshold of the weather resolver: 1 hour. -/
def RECENT_ACTIVITY_THRESHOLD_HOURS : ℚ := 1

/-- Default visibility in meters when the provider omits the field. -/
def DEFAULT_VISIBILITY_M : ℚ := 10000

/-- Raw weather fields shared by the One Call current block and a Time
Machine data element; fields the provider may omit are Option. -/
structure RawWeather where
  dt : ℤ
  temp : ℚ
  feels_like : ℚ
  humidity : ℚ
  pressure : ℚ
  wind_speed : ℚ
  wind_deg : ℚ
  wind_gust : Option ℚ
  clouds : ℚ
  visibility : Option ℚ
  uvi : Option ℚ
  weatherMain : String
  weatherDescription : String
  weatherIcon : String
deriving Repr, DecidableEq

/-- Normalized weather record produced by WeatherService.formatWeatherData. -/
structure WeatherData where
  temperature : ℤ
  temperatureFeel : ℤ
  humidity : ℚ
  pressure : ℚ
  windSpeed : ℚ
  windDirection : ℚ
  windGust : Option ℚ
  cloudCover : ℚ
  visibility : ℤ
  condition : String
  description : String
  icon : String
  uvIndex : ℚ
  timestampMs : ℤ
deriving Repr, DecidableEq

/-- JavaScript truthiness of an optional numeric field: absent and zero are
falsy. -/
def numTruthy (v : Option ℚ) : Bool :=
  match v with
  | none => false
  | some q => decide (q ≠ 0)

/-- JavaScript `v || dflt` applied to an optional numeric field: the value
when truthy, the default otherwise. -/
def numOrDefault (v : Option ℚ) (dflt : ℚ) : ℚ :=
  if numTruthy v then v.getD dflt else dflt

/-- WeatherService.formatWeatherData: temperatures rounded to whole degrees,
wind speed and gust rounded to one decimal, visibility converted from meters
to kilometers and rounded with a 10000 m default for falsy values, uvIndex
defaulted to 0, and a falsy wind gust left absent. -/
def formatWeatherData (d : RawWeather) : WeatherData :=
  { temperature := jsRound d.temp
    temperatureFeel := jsRound d.feels_like
    humidity := d.humidity
    pressure := d.pressure
    windSpeed := (jsRound (d.wind_speed * 10) : ℚ) / 10
    windDirection := d.wind_deg
    windGust :=
      if numTruthy d.wind_gust then
        some ((jsRound (d.wind_gust.getD 0 * 10) : ℚ) / 10)
      else none
    cloudCover := d.clouds
    visibility := jsRound (numOrDefault d.visibility DEFAULT_VISIBILITY_M / 1000)
    condition := d.weatherMain
    description := d.weatherDescription
    icon := d.weatherIcon
    uvIndex := numOrDefault d.uvi 0
    timestampMs := d.dt * 1000 }

/-- Elapsed time since the activity in hours, as computed by
getWeatherForActivity from two JavaScript Date time values in milliseconds. -/
def hoursSince (nowMs activityMs : ℤ) : ℚ :=
  ((nowMs - activityMs : ℤ) : ℚ) / (1000 * 60 * 60)

/-- Data sources getWeatherForActivity can choose from. -/
inductive WeatherSource where
  | current | historical | currentFallback
deriving Repr, DecidableEq

/-- Source selection of WeatherService.getWeatherForActivity: Time Machine
when the elapsed hours are over the recent threshold and at most the
historical limit, the current endpoint when at most the recent threshold, and
the current endpoint as explicit fallback beyond the historical limit. -/
def selectWeatherSource (nowMs activityMs : ℤ) : WeatherSource :=
  if RECENT_ACTIVITY_THRESHOLD_HOURS < hoursSince nowMs activityMs ∧
      hoursSince nowMs activityMs ≤ HISTORICAL_LIMIT_HOURS then
    WeatherSource.historical
  else if hoursSince nowMs activityMs ≤ RECENT_ACTIVITY_THRESHOLD_HOURS then
    WeatherSource.current
  else
    WeatherSource.currentFallback

/-- Provider endpoint call: the One Call current-conditions endpoint, or the
Time Machine endpoint keyed by a Unix-second timestamp. -/
inductive WeatherCall where
  | oneCall : WeatherCall
  | timeMachine : ℤ → WeatherCall
deriving Repr, DecidableEq

/-- The provider calls issued by one resolution: exactly one call, chosen by
selectWeatherSource; the Time Machine key is Math.floor(activityMs / 1000). -/
def weatherCallsFor (nowMs activityMs : ℤ) : List WeatherCall :=
  match selectWeatherSource nowMs activityMs with
  | WeatherSource.historical => [WeatherCall.timeMachine (activityMs.fdiv 1000)]
  | WeatherSource.current => [WeatherCall.oneCall]
  | WeatherSource.currentFallback => [WeatherCall.oneCall]

/-- Elapsed hours are at most 1 exactly when the elapsed milliseconds are at
most 3 600 000. -/
theorem hoursSince_le_one_iff (n a : ℤ) :
    hoursSince n a ≤ 1 ↔ n - a ≤ 3600000 := by
  rw [hoursSince, div_le_iff₀ (by norm_num : (0:ℚ) < 1000 * 60 * 60)]
  norm_num
  exact_mod_cast Iff.rfl

/-- Elapsed hours exceed 1 exactly when the elapsed milliseconds exceed
3 600 000. -/
theorem one_lt_hoursSince_iff (n a : ℤ) :
    1 < hoursSince n a ↔ 3600000 < n - a := by
  rw [hoursSince, lt_div_iff₀ (by norm_num : (0:ℚ) < 1000 * 60 * 60)]
  norm_num
  exact_mod_cast Iff.rfl

/-- Elapsed hours are at most 120 exactly when the elapsed milliseconds are
at most 432 000 000. -/
theorem hoursSince_le_limit_iff (n a : ℤ) :
    hoursSince n a ≤ 120 ↔ n - a ≤ 432000000 := by
  rw [hoursSince, div_le_iff₀ (by norm_num : (0:ℚ) < 1000 * 60 * 60)]
  norm_num
  exact_mod_cast Iff.rfl

/-- C5: the resolver selects the source solely from the elapsed time: at most
one hour selects the current endpoint only; over one hour and at most 120
hours selects the Time Machine only, keyed by the Unix-second floor of the
event time; over 120 hours falls back to the current endpoint with no
historical call. -/
theorem weather_source_selection (nowMs activityMs : ℤ) :
    (nowMs - activityMs ≤ 3600000 →
      selectWeatherSource nowMs activityMs = WeatherSource.current ∧
      weatherCallsFor nowMs activityMs = [WeatherCall.oneCall]) ∧
    (3600000 < nowMs - activityMs → nowMs - activityMs ≤ 432000000 →
      selectWeatherSource nowMs activityMs = WeatherSource.historical ∧
      weatherCallsFor nowMs activityMs =
        [WeatherCall.timeMachine (activityMs.fdiv 1000)]) ∧
    (432000000 < nowMs - activityMs →
      selectWeatherSource nowMs activityMs = WeatherSource.currentFallback ∧
      weatherCallsFor nowMs activityMs = [WeatherCall.oneCall]) := by
  refine ⟨?_, ?_, ?_⟩
  · intro h
    have h2 : hoursSince nowMs activityMs ≤ 1 :=
      (hoursSince_le_one_iff nowMs activityMs).2 h
    have h1 : ¬(1 < hoursSince nowMs activityMs ∧
        hoursSince nowMs activityMs ≤ 120) := by
      intro hc
      exact absurd ((one_lt_hoursSince_iff nowMs activityMs).1 hc.1) (by omega)
    simp [selectWeatherSource, weatherCallsFor,
      RECENT_ACTIVITY_THRESHOLD_HOURS, HISTORICAL_LIMIT_HOURS, h1, h2]
  · intro hgt hle
    have h1 : 1 < hoursSince nowMs activityMs :=
      (one_lt_hoursSince_iff nowMs activityMs).2 hgt
    have h2 : hoursSince nowMs activityMs ≤ 120 :=
      (hoursSince_le_limit_iff nowMs activityMs).2 hle
    simp [selectWeatherSource, weatherCallsFor,
      RECENT_ACTIVITY_THRESHOLD_HOURS, HISTORICAL_LIMIT_HOURS, h1, h2]
  · intro h
    have h2 : ¬ hoursSince nowMs activityMs ≤ 120 := by
      intro hc
      exact absurd ((hoursSince_le_limit_iff nowMs activityMs).1 hc) (by omega)
    have h1 : ¬ hoursSince nowMs activityMs ≤ 1 := by
      intro hc
      exact absurd ((hoursSince_le_one_iff nowMs activityMs).1 hc) (by omega)
    simp [selectWeatherSource, weatherCallsFor,
      RECENT_ACTIVITY_THRESHOLD_HOURS, HISTORICAL_LIMIT_HOURS, h1, h2]

/-- Witness for weather_source_selection: 30 minutes, 50 hours and 200 hours
of elapsed time. -/
theorem weather_source_selection_witness :
    selectWeatherSource 1800000 0 = WeatherSource.current ∧
    selectWeatherSource 180000000 0 = WeatherSource.historical ∧
    weatherCallsFor 180000000 0 = [WeatherCall.timeMachine 0] ∧
    selectWeatherSource 720000000 0 = WeatherSource.currentFallback ∧
    weatherCallsFor 720000000 0 = [WeatherCall.oneCall] :=
  ⟨((weather_source_selection 1800000 0).1 (by norm_num)).1,
   ((weather_source_selection 180000000 0).2.1 (by norm_num) (by norm_num)).1,
   (by
     have := ((weather_source_selection 180000000 0).2.1 (by norm_num)
       (by norm_num)).2
     simpa using this),
   ((weather_source_selection 720000000 0).2.2 (by norm_num)).1,
   ((weather_source_selection 720000000 0).2.2 (by norm_num)).2⟩

/-- JavaScript rounding lands within half a unit of its argument. -/
theorem jsRound_close (x : ℚ) : |(jsRound x : ℚ) - x| ≤ 1 / 2 := by
  have h1 : ((⌊x + 1 / 2⌋ : ℤ) : ℚ) ≤ x + 1 / 2 := Int.floor_le _
  have h2 : x + 1 / 2 - 1 < ((⌊x + 1 / 2⌋ : ℤ) : ℚ) := Int.sub_one_lt_floor _
  rw [jsRound, abs_le]
  constructor <;> linarith

/-- Rounding to one decimal lands within one twentieth of the argument. -/
theorem jsRound_tenths_close (x : ℚ) :
    |(jsRound (x * 10) : ℚ) / 10 - x| ≤ 1 / 20 := by
  have h := jsRound_close (x * 10)
  have heq : (jsRound (x * 10) : ℚ) / 10 - x =
      ((jsRound (x * 10) : ℚ) - x * 10) / 10 := by ring
  rw [heq, abs_div]
  rw [abs_of_pos (by norm_num : (0:ℚ) < 10)]
  linarith

/-- C6: the normalized record has temperature and feels-like within half a
degree of the raw Celsius values (nearest whole degree), wind speed and gust
in tenths within one twentieth of the raw value, visibility converted from
meters to kilometers and rounded with a 10 km default when the provider omits
it, and a UV index of 0 when the provider omits it. -/
theorem formatWeatherData_normalization (d : RawWeather) :
    |((formatWeatherData d).temperature : ℚ) - d.temp| ≤ 1 / 2 ∧
    |((formatWeatherData d).temperatureFeel : ℚ) - d.feels_like| ≤ 1 / 2 ∧
    (∃ n : ℤ, (formatWeatherData d).windSpeed = (n : ℚ) / 10 ∧
      |(formatWeatherData d).windSpeed - d.wind_speed| ≤ 1 / 20) ∧
    (∀ g : ℚ, d.wind_gust = some g → g ≠ 0 →
      ∃ n : ℤ, (formatWeatherData d).windGust = some ((n : ℚ) / 10) ∧
        |(n : ℚ) / 10 - g| ≤ 1 / 20) ∧
    (d.visibility = none → (formatWeatherData d).visibility = 10) ∧
    (∀ v : ℚ, d.visibility = some v → v ≠ 0 →
      (formatWeatherData d).visibility = jsRound (v / 1000) ∧
      |((formatWeatherData d).visibility : ℚ) - v / 1000| ≤ 1 / 2) ∧
    (d.uvi = none → (formatWeatherData d).uvIndex = 0) := by
  refine ⟨jsRound_close d.temp, jsRound_close d.feels_like,
    ⟨jsRound (d.wind_speed * 10), rfl, jsRound_tenths_close d.wind_speed⟩,
    ?_, ?_, ?_, ?_⟩
  · intro g hg hne
    refine ⟨jsRound (g * 10), ?_, jsRound_tenths_close g⟩
    simp [formatWeatherData, numTruthy, hg, hne]
  · intro hv
    simp only [formatWeatherData, numOrDefault, numTruthy, hv,
      DEFAULT_VISIBILITY_M]
    norm_num [jsRound]
  · intro v hv hne
    constructor
    · simp [formatWeatherData, numOrDefault, numTruthy, hv, hne]
    · have hvis : (formatWeatherData d).visibility = jsRound (v / 1000) := by
        simp [formatWeatherData, numOrDefault, numTruthy, hv, hne]
      rw [hvis]
      exact jsRound_close (v / 1000)
  · intro hu
    simp [formatWeatherData, numOrDefault, numTruthy, hu]

/-- Witness for formatWeatherData_normalization on a concrete raw payload
with an omitted visibility and UV index and a present wind gust. -/
theorem formatWeatherData_normalization_witness :
    (formatWeatherData
        ⟨0, 31/2, 13, 65, 1013, 7/2, 225, some (21/5), 40, none, none,
          "Clouds", "partly cloudy", "02d"⟩).visibility = 10 ∧
    (formatWeatherData
        ⟨0, 31/2, 13, 65, 1013, 7/2, 225, some (21/5), 40, none, none,
          "Clouds", "partly cloudy", "02d"⟩).uvIndex = 0 ∧
    (∃ n : ℤ,
      (formatWeatherData
          ⟨0, 31/2, 13, 65, 1013, 7/2, 225, some (21/5), 40, none, none,
            "Clouds", "partly cloudy", "02d"⟩).windGust = some ((n : ℚ) / 10) ∧
      |(n : ℚ) / 10 - 21/5| ≤ 1 / 20) :=
  ⟨(formatWeatherData_normalization _).2.2.2.2.1 rfl,
   (formatWeatherData_normalization _).2.2.2.2.2.2 rfl,
   (formatWeatherData_normalization _).2.2.2.1 (21/5) rfl (by norm_num)⟩

/-- C10: formatWeatherData treats falsy numeric provider values like
omissions: a reported visibility of 0 m takes the 10 km default, a reported
wind gust of 0 is absent from the record, and a reported UV index of 0 stays
0. -/
theorem formatWeatherData_falsy (d : RawWeather) :
    (d.visibility = some 0 → (formatWeatherData d).visibility = 10) ∧
    (d.wind_gust = some 0 → (formatWeatherData d).windGust = none) ∧
    (d.uvi = some 0 → (formatWeatherData d).uvIndex = 0) := by
  refine ⟨?_, ?_, ?_⟩
  · intro hv
    simp only [formatWeatherData, numOrDefault, numTruthy, hv,
      DEFAULT_VISIBILITY_M]
    norm_num [jsRound]
  · intro hg
    simp [formatWeatherData, numTruthy, hg]
  · intro hu
    simp [formatWeatherData, numOrDefault, numTruthy, hu]

/-- Witness for formatWeatherData_falsy on a payload reporting zero
visibility, zero gust and zero UV index. -/
theorem formatWeatherData_falsy_witness :
    (formatWeatherData
        ⟨0, 15, 13, 65, 1013, 7/2, 225, some 0, 40, some 0, some 0,
          "Clouds", "partly cloudy", "02d"⟩).visibility = 10 ∧
    (formatWeatherData
        ⟨0, 15, 13, 65, 1013, 7/2, 225, some 0, 40, some 0, some 0,
          "Clouds", "partly cloudy", "02d"⟩).windGust = none ∧
    (formatWeatherData
        ⟨0, 15, 13, 65, 1013, 7/2, 225, some 0, 40, some 0, some 0,
          "Clouds", "partly cloudy", "02d"⟩).uvIndex = 0 :=
  ⟨(formatWeatherData_falsy _).1 rfl,
   (formatWeatherData_falsy _).2.1 rfl,
   (formatWeatherData_falsy _).2.2 rfl⟩

/-- Shape of an Axios failure as inspected by WeatherService.handleApiError:
the HTTP status of the response when one arrived, the Axios error code, and
the error message. -/
structure AxiosFailure where
  status : Option ℕ
  code : Option String
  message : String
deriving Repr, DecidableEq

/-- A failure reaching the weather service catch blocks: an Axios error or
any other thrown error carrying a message. -/
inductive ProviderFailure where
  | axios : AxiosFailure → ProviderFailure
  | generic : String → ProviderFailure
deriving Repr, DecidableEq

/-- WeatherService.handleApiError: for an Axios failure, HTTP 401 maps to the
authentication message, then HTTP 429 to the rate-limit message, then code
ECONNABORTED to the timeout message; everything else, Axios or not, maps to
the generic provider-error message around the original message. -/
def weatherApiErrorMessage : ProviderFailure → String
  | ProviderFailure.axios e =>
    if e.status = some 401 then "Weather API authentication failed"
    else if e.status = some 429 then "Weather API rate limit exceeded"
    else if e.code = some "ECONNABORTED" then "Weather API request timeout"
    else "Weather API error: " ++ e.message
  | ProviderFailure.generic m => "Weather API error: " ++ m

/-- Catch block of WeatherService.getWeatherForActivity: every failure is
re-raised wrapped in the fetch-failed envelope around the mapped message. -/
def weatherFetchFailureMessage (e : ProviderFailure) : String :=
  "Failed to fetch weather data: " ++ weatherApiErrorMessage e

/-- C7: every provider failure surfaces as exactly one wrapped error whose
message starts with the fetch-failed envelope, and the wrapped cause follows
the failure kind: HTTP 401 is the authentication message, HTTP 429 the
rate-limit message, the timeout code the timeout message, and anything else
the generic provider-error message. -/
theorem weather_error_wrapping (e : ProviderFailure) :
    (∃ rest, weatherFetchFailureMessage e =
      "Failed to fetch weather data:" ++ rest) ∧
    (∀ a, e = ProviderFailure.axios a → a.status = some 401 →
      weatherFetchFailureMessage e =
        "Failed to fetch weather data: Weather API authentication failed") ∧
    (∀ a, e = ProviderFailure.axios a → a.status = some 429 →
      weatherFetchFailureMessage e =
        "Failed to fetch weather data: Weather API rate limit exceeded") ∧
    (∀ a, e = ProviderFailure.axios a → a.status ≠ some 401 →
      a.status ≠ some 429 → a.code = some "ECONNABORTED" →
      weatherFetchFailureMessage e =
        "Failed to fetch weather data: Weather API request timeout") ∧
    (∀ a, e = ProviderFailure.axios a → a.status ≠ some 401 →
      a.status ≠ some 429 → a.code ≠ some "ECONNABORTED" →
      weatherFetchFailureMessage e =
        "Failed to fetch weather data: Weather API error: " ++ a.message) ∧
    (∀ m, e = ProviderFailure.generic m →
      weatherFetchFailureMessage e =
        "Failed to fetch weather data: Weather API error: " ++ m) := by
  refine ⟨⟨" " ++ weatherApiErrorMessage e, ?_⟩, ?_, ?_, ?_, ?_, ?_⟩
  · rw [weatherFetchFailureMessage, ← String.append_assoc]
    rfl
  · intro a ha hs
    subst ha
    simp [weatherFetchFailureMessage, weatherApiErrorMessage, hs]
  · intro a ha hs
    subst ha
    simp [weatherFetchFailureMessage, weatherApiErrorMessage, hs]
  · intro a ha h1 h2 hc
    subst ha
    simp [weatherFetchFailureMessage, weatherApiErrorMessage, h1, h2, hc]
  · intro a ha h1 h2 hc
    subst ha
    simp only [weatherFetchFailureMessage, weatherApiErrorMessage,
      if_neg h1, if_neg h2, if_neg hc]
    rw [← String.append_assoc]
    rfl
  · intro m hm
    subst hm
    simp only [weatherFetchFailureMessage, weatherApiErrorMessage]
    rw [← String.append_assoc]
    rfl

/-- Witness for weather_error_wrapping on a concrete 401 failure and a
concrete timeout failure. -/
theorem weather_error_wrapping_witness :
    weatherFetchFailureMessage (ProviderFailure.axios ⟨some 401, none, "x"⟩) =
      "Failed to fetch weather data: Weather API authentication failed" ∧
    weatherFetchFailureMessage
        (ProviderFailure.axios ⟨none, some "ECONNABORTED", "t"⟩) =
      "Failed to fetch weather data: Weather API request timeout" ∧
    weatherFetchFailureMessage (ProviderFailure.generic "boom") =
      "Failed to fetch weather data: Weather API error: boom" :=
  ⟨(weather_error_wrapping _).2.1 ⟨some 401, none, "x"⟩ rfl rfl,
   (weather_error_wrapping _).2.2.2.1 ⟨none, some "ECONNABORTED", "t"⟩ rfl
     (by decide) (by decide) rfl,
   (weather_error_wrapping _).2.2.2.2.2 "boom" rfl⟩

/-- Processing outcome returned by ActivityProcessor.processActivity to the
webhook retry loop of src/routes/strava.ts. -/
structure ProcessingResult where
  success : Bool
  skipped : Bool
  error : Option String
  reason : Option String
deriving Repr, DecidableEq

/-- One invocation of the orchestrator as the retry loop observes it: a
returned outcome, or a thrown error carrying a message. -/
inductive OrchestratorCall where
  | returns : ProcessingResult → OrchestratorCall
  | throws : String → OrchestratorCall
deriving Repr, DecidableEq

/-- Maximum attempt count of the webhook retry loop (WEBHOOK_CONFIG). -/
def MAX_RETRY_ATTEMPTS : ℕ := 3

/-- Wall-clock ceiling of the webhook retry loop in ms (WEBHOOK_CONFIG). -/
def MAX_PROCESSING_TIME_MS : ℕ := 8000

/-- Retryability test of the webhook retry loop: the lowercased error string
of a failed outcome contains "not found" or "404"; a missing error string
counts as the empty string. -/
def isRetryableError (e : Option String) : Bool :=
  containsText (lowerText (e.getD "")) "not found" ||
    containsText (lowerText (e.getD "")) "404"

/-- State left by the webhook retry loop: the attempt counter, the number of
orchestrator invocations made, and the last returned outcome if any. -/
structure RetryLoopState where
  attempts : ℕ
  calls : ℕ
  result : Option ProcessingResult
deriving Repr, DecidableEq

/-- Body of the while loop of the POST /webhook handler, fuel-indexed. The
orchestrator invocations are indexed by call count and elapsedAt k is the
value of Date.now() − startTime observed at the k-th loop-head check. A
returned success or skip ends the loop, a returned failure ends it unless its
error is 404-shaped, and a thrown error always consumes an attempt and
continues. -/
def webhookLoopGo (step : ℕ → OrchestratorCall) (elapsedAt : ℕ → ℕ) :
    ℕ → ℕ → ℕ → Option ProcessingResult → RetryLoopState
  | 0, attempts, calls, last => ⟨attempts, calls, last⟩
  | fuel + 1, attempts, calls, last =>
    if attempts < MAX_RETRY_ATTEMPTS ∧
        elapsedAt calls < MAX_PROCESSING_TIME_MS then
      match step calls with
      | OrchestratorCall.throws _ =>
        webhookLoopGo step elapsedAt fuel (attempts + 1) (calls + 1) last
      | OrchestratorCall.returns r =>
        if r.success || r.skipped then ⟨attempts, calls + 1, some r⟩
        else if isRetryableError r.error then
          webhookLoopGo step elapsedAt fuel (attempts + 1) (calls + 1) (some r)
        else ⟨attempts, calls + 1, some r⟩
    else ⟨attempts, calls, last⟩

/-- The webhook retry loop from its initial state. MAX_RETRY_ATTEMPTS fuel
suffices because every continuing iteration increments the attempt counter
that the loop condition bounds by the same constant. -/
def webhookRetryLoop (step : ℕ → OrchestratorCall) (elapsedAt : ℕ → ℕ) :
    RetryLoopState :=
  webhookLoopGo step elapsedAt MAX_RETRY_ATTEMPTS 0 0 none

/-- A call after which the loop keeps going: a thrown error, or a returned
failure whose error string is 404-shaped. -/
def retriedCall : OrchestratorCall → Prop
  | OrchestratorCall.throws _ => True
  | OrchestratorCall.returns r =>
    r.success = false ∧ r.skipped = false ∧ isRetryableError r.error = true

/-- The loop makes at most fuel further orchestrator calls. -/
theorem webhookLoopGo_calls_le (step : ℕ → OrchestratorCall)
    (elapsedAt : ℕ → ℕ) :
    ∀ fuel attempts calls last,
      (webhookLoopGo step elapsedAt fuel attempts calls last).calls ≤
        calls + fuel := by
  intro fuel
  induction fuel with
  | zero => intro a c last; simp [webhookLoopGo]
  | succ n ih =>
    intro a c last
    rw [webhookLoopGo]
    split
    · split
      · exact le_trans (ih _ _ _) (by omega)
      · split
        · exact (show c + 1 ≤ c + (n + 1) by omega)
        · split
          · exact le_trans (ih _ _ _) (by omega)
          · exact (show c + 1 ≤ c + (n + 1) by omega)
    · exact (show c ≤ c + (n + 1) by omega)

/-- Every orchestrator call is made only while the elapsed time observed at
the loop head is under the ceiling. -/
theorem webhookLoopGo_budget (step : ℕ → OrchestratorCall)
    (elapsedAt : ℕ → ℕ) :
    ∀ fuel attempts calls last k, calls ≤ k →
      k < (webhookLoopGo step elapsedAt fuel attempts calls last).calls →
      elapsedAt k < MAX_PROCESSING_TIME_MS := by
  intro fuel
  induction fuel with
  | zero =>
    intro a c last k hck hk
    have hk2 : k < c := hk
    omega
  | succ n ih =>
    intro a c last k hck hk
    rw [webhookLoopGo] at hk
    split at hk
    · rename_i hcond
      rcases eq_or_lt_of_le hck with hek | hck2
      · subst hek
        exact hcond.2
      · split at hk
        · exact ih _ _ _ k (by omega) hk
        · split at hk
          · have hk2 : k < c + 1 := hk
            omega
          · split at hk
            · exact ih _ _ _ k (by omega) hk
            · have hk2 : k < c + 1 := hk
              omega
    · have hk2 : k < c := hk
      omega

/-- A further orchestrator call after call k happens only when call k threw
or returned a 404-shaped failure. -/
theorem webhookLoopGo_retry_only (step : ℕ → OrchestratorCall)
    (elapsedAt : ℕ → ℕ) :
    ∀ fuel attempts calls last k, calls ≤ k →
      k + 1 < (webhookLoopGo step elapsedAt fuel attempts calls last).calls →
      retriedCall (step k) := by
  intro fuel
  induction fuel with
  | zero =>
    intro a c last k hck hk
    have hk2 : k + 1 < c := hk
    omega
  | succ n ih =>
    intro a c last k hck hk
    rw [webhookLoopGo] at hk
    split at hk
    · split at hk
      · rename_i m heq
        rcases eq_or_lt_of_le hck with hek | hck2
        · subst hek
          rw [heq]
          trivial
        · exact ih _ _ _ k (by omega) hk
      · rename_i r heq
        split at hk
        · have hk2 : k + 1 < c + 1 := hk
          omega
        · rename_i hsk
          split at hk
          · rename_i hre
            rcases eq_or_lt_of_le hck with hek | hck2
            · subst hek
              rw [heq, retriedCall]
              simp only [Bool.or_eq_true] at hsk
              push_neg at hsk
              exact ⟨by simpa using hsk.1, by simpa using hsk.2, hre⟩
            · exact ih _ _ _ k (by omega) hk
          · have hk2 : k + 1 < c + 1 := hk
            omega
    · have hk2 : k + 1 < c := hk
      omega

/-- C1: for any orchestrator behavior and clock, the retry loop invokes the
orchestrator at most 3 times, each invocation happens only while the elapsed
time observed at the loop head is under the 8-second ceiling, and a further
invocation after one that returned an outcome happens only when that outcome
was a failure whose error string is 404-shaped — a returned success, skip, or
non-404-shaped failure ends the loop with no further orchestrator calls. -/
theorem webhook_retry_loop_bounds (step : ℕ → OrchestratorCall)
    (elapsedAt : ℕ → ℕ) :
    (webhookRetryLoop step elapsedAt).calls ≤ 3 ∧
    (∀ k, k < (webhookRetryLoop step elapsedAt).calls → elapsedAt k < 8000) ∧
    (∀ k r, step k = OrchestratorCall.returns r →
      k + 1 < (webhookRetryLoop step elapsedAt).calls →
      r.success = false ∧ r.skipped = false ∧
        isRetryableError r.error = true) := by
  refine ⟨?_, ?_, ?_⟩
  · exact webhookLoopGo_calls_le step elapsedAt MAX_RETRY_ATTEMPTS 0 0 none
  · intro k hk
    exact webhookLoopGo_budget step elapsedAt MAX_RETRY_ATTEMPTS 0 0 none k
      (Nat.zero_le k) hk
  · intro k r hr hk
    have h := webhookLoopGo_retry_only step elapsedAt MAX_RETRY_ATTEMPTS 0 0
      none k (Nat.zero_le k) hk
    rw [hr, retriedCall] at h
    exact h

/-- Orchestrator behavior that always returns the 404-shaped failure the
Strava client produces for a missing activity. -/
def stepAlways404 : ℕ → OrchestratorCall := fun _ =>
  OrchestratorCall.returns
    ⟨false, false, some "Resource not found or not accessible", none⟩

/-- Clock that observes 100 k milliseconds at the k-th loop-head check. -/
def clockHundred : ℕ → ℕ := fun k => 100 * k

/-- Witness for webhook_retry_loop_bounds: against an always-404 orchestrator
under a fast clock the loop makes a second invocation, so the theorem
certifies the first outcome as a 404-shaped failure. -/
theorem webhook_retry_loop_bounds_witness :
    (webhookRetryLoop stepAlways404 clockHundred).calls ≤ 3 ∧
    isRetryableError (some "Resource not found or not accessible") = true :=
  ⟨(webhook_retry_loop_bounds stepAlways404 clockHundred).1,
   ((webhook_retry_loop_bounds stepAlways404 clockHundred).2.2 0
      ⟨false, false, some "Resource not found or not accessible", none⟩
      rfl (by decide)).2.2⟩

/-- Event object types accepted by the webhook schema. -/
inductive ObjectType where
  | activity | athlete
deriving Repr, DecidableEq

/-- Event aspect types accepted by the webhook schema. -/
inductive AspectType where
  | create | update | delete | deauthorize
deriving Repr, DecidableEq

/-- A webhook event that passed schema validation. -/
structure WebhookEvent where
  object_type : ObjectType
  object_id : ℕ
  aspect_type : AspectType
  owner_id : ℕ
  subscription_id : ℕ
  event_time : ℕ
deriving Repr, DecidableEq

/-- User record fields the webhook handler consults. -/
structure WebhookUser where
  id : String
  weatherEnabled : Bool
deriving Repr, DecidableEq

/-- Result of the findByStravaAthleteId repository call: a user, no user, or
a thrown error. -/
inductive LookupOutcome where
  | found : WebhookUser → LookupOutcome
  | absent : LookupOutcome
  | fails : String → LookupOutcome
deriving Repr, DecidableEq

/-- Result of the deleteByStravaAthleteId repository call. -/
inductive DeleteOutcome where
  | ok : DeleteOutcome
  | fails : String → DeleteOutcome
deriving Repr, DecidableEq

/-- Collaborators of one POST /webhook request: the repository outcomes, the
orchestrator behavior per invocation, and the clock observed at each
loop-head check. -/
structure WebhookEnv where
  lookup : LookupOutcome
  deleteUser : DeleteOutcome
  step : ℕ → OrchestratorCall
  elapsedAt : ℕ → ℕ

/-- HTTP response of the webhook route with the JSON body fields the handler
sets; fields a branch does not set are none. -/
structure HttpResponse where
  status : ℕ
  message : String
  userId : Option String
  activityId : Option String
  attempts : Option ℕ
  success : Option Bool
  skipped : Option Bool
deriving Repr, DecidableEq

/-- JavaScript `result?.success || false` over the loop's final outcome. -/
def outcomeSuccess (r : Option ProcessingResult) : Bool :=
  match r with
  | some p => p.success
  | none => false

/-- JavaScript `result?.skipped || false` over the loop's final outcome. -/
def outcomeSkipped (r : Option ProcessingResult) : Bool :=
  match r with
  | some p => p.skipped
  | none => false

/-- POST /webhook handler of src/routes/strava.ts. A schema-invalid body is
acknowledged with 200 at once. An athlete deauthorize event runs the guarded
lookup-and-delete path whose catch acknowledges with 200 on any repository
error. Any other event that is not an activity create is acknowledged as a
no-op. An activity create event looks up the owner — an error thrown there
propagates out of the handler — then gates on the user being known and
weather-enabled, then drives the retry loop and answers 200 with the loop
summary. The returned number counts orchestrator invocations. -/
def webhookHandler (env : WebhookEnv) (body : Option WebhookEvent) :
    Except String (HttpResponse × ℕ) :=
  match body with
  | none =>
    .ok (⟨200, "Invalid event acknowledged", none, none, none, none, none⟩, 0)
  | some event =>
    if event.object_type = ObjectType.athlete ∧
        event.aspect_type = AspectType.deauthorize then
      match env.lookup with
      | LookupOutcome.fails _ =>
        .ok (⟨200, "Deauthorization acknowledged", none, none, none, none,
          none⟩, 0)
      | LookupOutcome.absent =>
        .ok (⟨200, "Deauthorization acknowledged", none, none, none, none,
          none⟩, 0)
      | LookupOutcome.found u =>
        match env.deleteUser with
        | DeleteOutcome.fails _ =>
          .ok (⟨200, "Deauthorization acknowledged", none, none, none, none,
            none⟩, 0)
        | DeleteOutcome.ok =>
          .ok (⟨200, "Deauthorization processed", some u.id, none, none, none,
            none⟩, 0)
    else if ¬(event.object_type = ObjectType.activity ∧
        event.aspect_type = AspectType.create) then
      .ok (⟨200, "Event acknowledged", none, none, none, none, none⟩, 0)
    else
      match env.lookup with
      | LookupOutcome.fails e => .error e
      | LookupOutcome.absent =>
        .ok (⟨200, "Event acknowledged", none, none, none, none, none⟩, 0)
      | LookupOutcome.found u =>
        if u.weatherEnabled = false then
          .ok (⟨200, "Event acknowledged", none, none, none, none, none⟩, 0)
        else
          .ok (⟨200, "Webhook processed", none,
            some (toString event.object_id),
            some (webhookRetryLoop env.step env.elapsedAt).attempts,
            some (outcomeSuccess (webhookRetryLoop env.step
              env.elapsedAt).result),
            some (outcomeSkipped (webhookRetryLoop env.step
              env.elapsedAt).result)⟩,
            (webhookRetryLoop env.step env.elapsedAt).calls)

/-- Modelled from the spec: the asyncHandler and error-handling middleware
wrapping the webhook route are not under src; per the spec, an unexpected
error escaping the handler for a structurally valid webhook is caught by the
outer handler, which still acknowledges HTTP 200 to the sender rather than
ever returning a non-200. -/
def outerWebhookHandler (env : WebhookEnv) (body : Option WebhookEvent) :
    HttpResponse × ℕ :=
  match webhookHandler env body with
  | .ok r => r
  | .error _ => (⟨200, "acknowledged", none, none, none, none, none⟩, 0)

/-- Every response the webhook handler itself produces carries status 200. -/
theorem webhookHandler_ok_status (env : WebhookEnv)
    (body : Option WebhookEvent) (r : HttpResponse) (n : ℕ)
    (h : webhookHandler env body = Except.ok (r, n)) : r.status = 200 := by
  rcases body with _ | e
  · rw [webhookHandler] at h
    cases h
    rfl
  · rw [webhookHandler] at h
    split at h
    · split at h
      · cases h
        rfl
      · cases h
        rfl
      · split at h
        · cases h
          rfl
        · cases h
          rfl
    · split at h
      · cases h
        rfl
      · split at h
        · cases h
        · cases h
          rfl
        · split at h
          · cases h
            rfl
          · cases h
            rfl

/-- C2: every POST /webhook request is answered with HTTP status 200: a
malformed body is acknowledged as an invalid event with no orchestrator
invocation, any error in the deauthorization lookup or delete is caught and
acknowledged, and processing failures surface only inside the 200 body. -/
theorem webhook_always_200 (env : WebhookEnv) (body : Option WebhookEvent) :
    (outerWebhookHandler env body).1.status = 200 ∧
    (body = none →
      (outerWebhookHandler env body).1.message = "Invalid event acknowledged" ∧
      (outerWebhookHandler env body).2 = 0) ∧
    (∀ e, body = some e → e.object_type = ObjectType.athlete →
      e.aspect_type = AspectType.deauthorize →
      (outerWebhookHandler env body).2 = 0 ∧
      ((outerWebhookHandler env body).1.message = "Deauthorization processed" ∨
        (outerWebhookHandler env body).1.message =
          "Deauthorization acknowledged")) := by
  refine ⟨?_, ?_, ?_⟩
  · rw [outerWebhookHandler]
    rcases hw : webhookHandler env body with m | r
    · rfl
    · exact webhookHandler_ok_status env body r.1 r.2 hw
  · intro hb
    subst hb
    exact ⟨rfl, rfl⟩
  · intro e hb hobj hasp
    subst hb
    rw [outerWebhookHandler, webhookHandler, if_pos ⟨hobj, hasp⟩]
    rcases env.lookup with u | _ | m
    · rcases env.deleteUser with _ | m
      · exact ⟨rfl, Or.inl rfl⟩
      · exact ⟨rfl, Or.inr rfl⟩
    · exact ⟨rfl, Or.inr rfl⟩
    · exact ⟨rfl, Or.inr rfl⟩

/-- Concrete webhook environment with a known weather-enabled user and a
failing repository delete. -/
def envDeauthFail : WebhookEnv :=
  ⟨LookupOutcome.found ⟨"user-123", true⟩, DeleteOutcome.fails "db down",
    stepAlways404, clockHundred⟩

/-- Concrete athlete deauthorization event. -/
def eventDeauth : WebhookEvent :=
  ⟨ObjectType.athlete, 12345, AspectType.deauthorize, 12345, 98765,
    1705311000⟩

/-- Witness for webhook_always_200: a malformed body and a deauthorization
whose delete fails are both acknowledged with 200. -/
theorem webhook_always_200_witness :
    (outerWebhookHandler envDeauthFail none).1.message =
      "Invalid event acknowledged" ∧
    (outerWebhookHandler envDeauthFail (some eventDeauth)).1.status = 200 ∧
    ((outerWebhookHandler envDeauthFail (some eventDeauth)).1.message =
        "Deauthorization processed" ∨
      (outerWebhookHandler envDeauthFail (some eventDeauth)).1.message =
        "Deauthorization acknowledged") :=
  ⟨((webhook_always_200 envDeauthFail none).2.1 rfl).1,
   (webhook_always_200 envDeauthFail (some eventDeauth)).1,
   ((webhook_always_200 envDeauthFail (some eventDeauth)).2.2 eventDeauth
      rfl rfl rfl).2⟩

/-- C9: when every orchestrator invocation throws, the loop counts each
thrown error as a consumed attempt and keeps retrying regardless of the
message, up to the same 3-attempt bound while the clock checks stay under
8 seconds, and the handler still answers status 200. -/
theorem webhook_thrown_errors_retried (env : WebhookEnv) (e : WebhookEvent)
    (u : WebhookUser) (msgs : ℕ → String)
    (hstep : env.step = fun k => OrchestratorCall.throws (msgs k))
    (hlookup : env.lookup = LookupOutcome.found u)
    (hwx : u.weatherEnabled = true)
    (hobj : e.object_type = ObjectType.activity)
    (hasp : e.aspect_type = AspectType.create)
    (hel : ∀ k, k < 3 → env.elapsedAt k < 8000) :
    webhookRetryLoop env.step env.elapsedAt =
      ⟨3, 3, none⟩ ∧
    webhookHandler env (some e) =
      Except.ok (⟨200, "Webhook processed", none, some (toString e.object_id),
        some 3, some false, some false⟩, 3) := by
  have hloop : webhookRetryLoop env.step env.elapsedAt = ⟨3, 3, none⟩ := by
    rw [webhookRetryLoop, MAX_RETRY_ATTEMPTS]
    rw [webhookLoopGo, if_pos ⟨by decide, hel 0 (by omega)⟩, hstep]
    rw [webhookLoopGo, if_pos ⟨by decide, hel 1 (by omega)⟩]
    rw [webhookLoopGo, if_pos ⟨by decide, hel 2 (by omega)⟩]
    rw [webhookLoopGo]
  refine ⟨hloop, ?_⟩
  have hne : ¬(e.object_type = ObjectType.athlete ∧
      e.aspect_type = AspectType.deauthorize) := by
    intro hc
    rw [hobj] at hc
    exact absurd hc.1 (by simp)
  have hyes : e.object_type = ObjectType.activity ∧
      e.aspect_type = AspectType.create := ⟨hobj, hasp⟩
  rw [webhookHandler, if_neg hne, if_neg (by simpa using hyes), hlookup]
  simp [hwx, hloop, outcomeSuccess, outcomeSkipped]

/-- Concrete webhook environment whose orchestrator always throws. -/
def envAllThrows : WebhookEnv :=
  ⟨LookupOutcome.found ⟨"user-123", true⟩, DeleteOutcome.ok,
    fun _ => OrchestratorCall.throws "boom", clockHundred⟩

/-- Concrete activity create event. -/
def eventCreate : WebhookEvent :=
  ⟨ObjectType.activity, 123456, AspectType.create, 12345, 98765, 1705311000⟩

/-- Witness for webhook_thrown_errors_retried: an always-throwing
orchestrator under a fast clock consumes all 3 attempts and the handler
still answers 200. -/
theorem webhook_thrown_errors_retried_witness :
    webhookRetryLoop envAllThrows.step envAllThrows.elapsedAt =
      ⟨3, 3, none⟩ ∧
    webhookHandler envAllThrows (some eventCreate) =
      Except.ok (⟨200, "Webhook processed", none,
        some (toString eventCreate.object_id), some 3, some false,
        some false⟩, 3) :=
  webhook_thrown_errors_retried envAllThrows eventCreate ⟨"user-123", true⟩
    (fun _ => "boom") rfl rfl rfl rfl rfl
    (fun k hk => show 100 * k < 8000 by omega)

/-- The scan finds the pattern in an extended list whenever it finds it in
the suffix. -/
theorem containsChars_append_right (pat ys xs : List Char)
    (h : containsChars pat ys = true) :
    containsChars pat (xs ++ ys) = true := by
  induction xs with
  | nil => simpa using h
  | cons x rest ih =>
    rw [List.cons_append, containsChars]
    simp [ih]

/-- Appending on the left preserves substring containment. -/
theorem containsText_append_right (a b pat : String)
    (h : containsText b pat = true) : containsText (a ++ b) pat = true := by
  rw [containsText] at h ⊢
  rw [String.data_append]
  exact containsChars_append_right _ _ _ h

/-- Modelled from the spec: activity fields the Orchestrator's decision gates
consult (services/activityProcessor.ts is not under src; only its tests and
callers are). -/
structure OrchActivity where
  description : String
  start_latlng : Option (ℚ × ℚ)
deriving Repr, DecidableEq

/-- Modelled from the spec: the Orchestrator's processing outcome, with the
descriptions written upstream recorded in updates. -/
structure OrchOutcome where
  success : Bool
  skipped : Bool
  reason : Option String
  updates : List String
deriving Repr, DecidableEq

/-- Modelled from the spec: the weather marker text whose presence in a
description identifies already-enriched activities (gate a of §4.4). -/
def weatherMarker : String := "°C"

/-- Modelled from the spec: gate (a) of the Orchestrator — the description
already contains weather-formatted text. -/
def hasWeatherData (desc : String) : Bool := containsText desc weatherMarker

/-- Modelled from the spec: the human-readable weather summary appended to
the description; it carries the marker text. -/
def formatWeatherSummary (w : WeatherData) : String :=
  w.condition ++ ", " ++ toString w.temperature ++ "°C"

/-- Modelled from the spec: ActivityProcessor.processActivity of §4.4 after
the activity fetch succeeded — decision gates in order: a description that
already has the marker skips with "Already has weather data" and writes
nothing; a disabled weather preference skips with "Weather updates disabled";
missing start coordinates skip with "No GPS coordinates"; otherwise the
summary is appended to the description, written upstream, and a success
outcome is returned. -/
def processActivity (weatherEnabled : Bool) (a : OrchActivity)
    (w : WeatherData) : OrchOutcome :=
  if hasWeatherData a.description then
    ⟨true, true, some "Already has weather data", []⟩
  else if weatherEnabled = false then
    ⟨true, true, some "Weather updates disabled", []⟩
  else
    match a.start_latlng with
    | none => ⟨true, true, some "No GPS coordinates", []⟩
    | some _ =>
      ⟨true, false, none,
        [a.description ++ "\n\n" ++ formatWeatherSummary w]⟩

/-- C3: enrichment is idempotent through the description-marker gate — an
activity whose description already contains the marker is skipped with
reason "Already has weather data" and no upstream write; in particular the
description a successful call writes contains the marker, so a second call
on the written description is skipped with that reason and writes nothing,
for any activity, preference and weather. -/
theorem processActivity_idempotent (we we2 : Bool) (a : OrchActivity)
    (w w2 : WeatherData) :
    (hasWeatherData a.description = true →
      processActivity we a w =
        ⟨true, true, some "Already has weather data", []⟩) ∧
    (∀ d, (processActivity we a w).updates = [d] →
      processActivity we2 ⟨d, a.start_latlng⟩ w2 =
        ⟨true, true, some "Already has weather data", []⟩) := by
  constructor
  · intro h
    rw [processActivity, if_pos h]
  · intro d hd
    have hmark : hasWeatherData d = true := by
      rw [processActivity] at hd
      split at hd
      · exact absurd hd (by simp)
      · split at hd
        · exact absurd hd (by simp)
        · split at hd
          · exact absurd hd (by simp)
          · simp only [List.cons.injEq, and_true] at hd
            subst hd
            rw [hasWeatherData]
            refine containsText_append_right _ _ _ ?_
            rw [formatWeatherSummary]
            exact containsText_append_right _ _ _ (by decide)
    rw [processActivity, if_pos hmark]

/-- Witness for processActivity_idempotent: a first call on a plain
description writes the enriched description, and the second call on it is
skipped with no write. -/
theorem processActivity_idempotent_witness :
    processActivity true
        ⟨"Morning Run" ++ "\n\n" ++
          formatWeatherSummary
            ⟨15, 13, 65, 1013, 7/2, 225, none, 40, 10, "Clouds",
              "partly cloudy", "02d", 3, 0⟩, some (52, 13)⟩
        ⟨15, 13, 65, 1013, 7/2, 225, none, 40, 10, "Clouds",
          "partly cloudy", "02d", 3, 0⟩ =
      ⟨true, true, some "Already has weather data", []⟩ :=
  (processActivity_idempotent true true ⟨"Morning Run", some (52, 13)⟩
      ⟨15, 13, 65, 1013, 7/2, 225, none, 40, 10, "Clouds",
        "partly cloudy", "02d", 3, 0⟩
      ⟨15, 13, 65, 1013, 7/2, 225, none, 40, 10, "Clouds",
        "partly cloudy", "02d", 3, 0⟩).2
    ("Morning Run" ++ "\n\n" ++
      formatWeatherSummary
        ⟨15, 13, 65, 1013, 7/2, 225, none, 40, 10, "Clouds",
          "partly cloudy", "02d", 3, 0⟩)
    (by decide)
